import Mathlib

/-!
Verification of the Beds24 booking-report program (`src/main.py`).

The Python source is shallowly embedded below:
* calendar dates (`datetime.date`, `strptime('%Y-%m-%d')`) become `Date`
  with a proleptic-Gregorian ordinal (`Date.toOrdinal`, mirroring
  `date.toordinal`, so that `timedelta.days` of a date difference is an
  ordinal difference);
* JSON scalar values that may be integers or strings become `RawVal`;
* the dataclass `Reservation` (including the dates derived by
  `__post_init__`) becomes the structure `Reservation`;
* `parse_booking_data`, `categorize_reservations`, the deduplication
  loop of `fetch_all_relevant_bookings`, `TokenStorage.get_tokens` and
  `Beds24APIClient.authenticate` become the Lean functions of the same
  names, with the network exchanges abstracted as an `AuthEnv` of
  response functions and `datetime.now()` as an explicit `now` argument;
* Python's `sorted` (a stable ascending sort) becomes `List.mergeSort`;
* exceptions (`ValueError` from `strptime`, abstracted in the spec as
  `MalformedRecordError`; `requests.exceptions.RequestException`)
  become `Except` results.
-/

/-! ## Calendar dates -/

/-- A calendar date, the embedding of `datetime.date`.  Python compares
dates componentwise year/month/day. -/
structure Date where
  year : Nat
  month : Nat
  day : Nat
deriving DecidableEq

/-- Gregorian leap-year test, as in `calendar.isleap`. -/
def isLeapYear (y : Nat) : Bool :=
  (y % 4 == 0 && y % 100 != 0) || y % 400 == 0

/-- Number of days in month `m` of year `y`. -/
def daysInMonth (y m : Nat) : Nat :=
  if m == 2 then (if isLeapYear y then 29 else 28)
  else if m == 4 || m == 6 || m == 9 || m == 11 then 30
  else 31

/-- Days in year `y` strictly before month `m` (1-based). -/
def daysBeforeMonth (y m : Nat) : Nat :=
  (List.range (m - 1)).foldl (fun acc i => acc + daysInMonth y (i + 1)) 0

/-- Proleptic-Gregorian ordinal of a date, as `datetime.date.toordinal`:
day 1 is January 1 of year 1. -/
def Date.toOrdinal (dt : Date) : Nat :=
  let y := dt.year - 1
  365 * y + y / 4 - y / 100 + y / 400 + daysBeforeMonth dt.year dt.month + dt.day

/-- Difference of two dates in days (`(a - b).days` for dates). -/
def Date.diffDays (a b : Date) : Int :=
  (a.toOrdinal : Int) - (b.toOrdinal : Int)

/-- Strict comparison of dates, as Python's `date.__lt__`
(componentwise year, then month, then day). -/
def Date.ltb (a b : Date) : Bool :=
  a.year < b.year ||
    (a.year == b.year && (a.month < b.month ||
      (a.month == b.month && a.day < b.day)))

/-! ## ISO date parsing (`datetime.strptime(s, '%Y-%m-%d')`) -/

/-- Split a character list on the `-` separator, as the `%Y-%m-%d`
format does between its numeric fields. -/
def splitOnDash : List Char → List (List Char)
  | [] => [[]]
  | c :: rest =>
    let r := splitOnDash rest
    if c = '-' then [] :: r
    else
      match r with
      | [] => [[c]]
      | g :: gs => (c :: g) :: gs

/-- Value of a digit string, most significant digit first. -/
def digitsToNat (cs : List Char) : Nat :=
  cs.foldl (fun acc c => acc * 10 + (c.toNat - 48)) 0

/-- A non-empty all-digit field of at most `maxLen` characters, the
shape `strptime` accepts for `%Y` (4), `%m` and `%d` (2). -/
def validDigits (cs : List Char) (maxLen : Nat) : Bool :=
  decide (1 ≤ cs.length) && decide (cs.length ≤ maxLen) && cs.all Char.isDigit

/-- Parse an ISO `YYYY-MM-DD` date, returning `none` where
`datetime.strptime(s, '%Y-%m-%d')` raises `ValueError`: the embedding
of that call.  `datetime` years span 1..9999. -/
def parseDate (s : String) : Option Date :=
  match splitOnDash s.toList with
  | [ys, ms, ds] =>
    if validDigits ys 4 && validDigits ms 2 && validDigits ds 2 then
      let y := digitsToNat ys
      let m := digitsToNat ms
      let d := digitsToNat ds
      if 1 ≤ y && y ≤ 9999 && 1 ≤ m && m ≤ 12 && 1 ≤ d && d ≤ daysInMonth y m
      then some ⟨y, m, d⟩
      else none
    else none
  | _ => none

/-! ## Raw JSON scalar values -/

/-- A scalar field of a raw booking record: the API returns either an
integer or a string in the fields the program inspects. -/
inductive RawVal where
  | vInt : Int → RawVal
  | vStr : String → RawVal
deriving DecidableEq

/-- A non-empty all-digit character list (any length). -/
def allDigits (cs : List Char) : Bool :=
  decide (1 ≤ cs.length) && cs.all Char.isDigit

/-- Python `int(string)`: surrounding whitespace is stripped, a single
sign may precede the digits. -/
def intOfChars (cs : List Char) : Option Int :=
  let t := ((cs.dropWhile Char.isWhitespace).reverse.dropWhile Char.isWhitespace).reverse
  match t with
  | '-' :: rest => if allDigits rest then some (-(digitsToNat rest : Int)) else none
  | '+' :: rest => if allDigits rest then some ((digitsToNat rest : Int)) else none
  | _ => if allDigits t then some ((digitsToNat t : Int)) else none

/-- Python `int(x)` on a raw scalar: identity on integers, parsed for
strings, `none` where `int` raises. -/
def RawVal.toInt? : RawVal → Option Int
  | RawVal.vInt n => some n
  | RawVal.vStr s => intOfChars s.toList

/-- Python `str(x)` / f-string interpolation of a raw scalar. -/
def RawVal.str : RawVal → String
  | RawVal.vInt n => toString n
  | RawVal.vStr s => s

/-! ## Raw booking records and reservations -/

/-- A raw booking record as returned by the listing endpoint: each
field is absent (`none`) or present, exactly the distinction
`booking.get(key, default)` makes. -/
structure RawBooking where
  id : Option RawVal
  firstName : Option String
  lastName : Option String
  roomId : Option RawVal
  unitId : Option RawVal
  arrival : Option String
  departure : Option String
  status : Option String
  numAdult : Option Int
  numChild : Option Int
  notes : Option String
deriving DecidableEq

/-- The `Reservation` dataclass.  `checkin_date` and `checkout_date`
are the fields derived by `__post_init__` from the `checkin` and
`checkout` strings. -/
structure Reservation where
  booking_id : String
  guest_name : String
  room_name : String
  room_id : String
  unit_id : String
  checkin : String
  checkout : String
  status : String
  adults : Int
  children : Int
  nights : Int
  notes : String
  checkin_date : Date
  checkout_date : Date
deriving DecidableEq

/-- The error abstracting the `ValueError` that `strptime` raises on an
unparseable date inside `parse_booking_data` (named
`MalformedRecordError` in the specification). -/
inductive MalformedRecordError where
  | malformedDate : MalformedRecordError
deriving DecidableEq

/-- The static `room_lookup` table of `parse_booking_data`. -/
def room_lookup : List ((Int × Int) × String) :=
  [((564321, 1), "101"),
   ((564321, 2), "201"),
   ((564321, 3), "301"),
   ((564321, 4), "302"),
   ((564327, 1), "102"),
   ((564327, 2), "202"),
   ((564325, 1), "103"),
   ((564325, 2), "203"),
   ((564328, 1), "104"),
   ((564328, 2), "204"),
   ((564326, 1), "105"),
   ((564326, 2), "106"),
   ((564326, 3), "205"),
   ((564326, 4), "206"),
   ((564322, 1), "404"),
   ((564322, 2), "504"),
   ((564322, 3), "604"),
   ((564323, 1), "401"),
   ((564323, 2), "402"),
   ((564323, 3), "403"),
   ((564323, 4), "501"),
   ((564323, 5), "502"),
   ((564323, 6), "503"),
   ((564323, 7), "601"),
   ((564323, 8), "602"),
   ((564323, 9), "603"),
   ((564324, 1), "405"),
   ((564324, 2), "505"),
   ((564324, 3), "605"),
   ((570543, 1), "701"),
   ((570545, 1), "702"),
   ((570542, 1), "703"),
   ((570544, 1), "704"),
   ((570546, 1), "705")]

/-- Dictionary lookup in the room table (`room_lookup.get(lookup_key)`
restricted to the integer keys the table holds). -/
def lookupTable (k : Int × Int) : Option String :=
  (room_lookup.find? (fun p => p.1 == k)).map (fun p => p.2)

/-- The `try: room_id = int(...); unit_id = int(...) except: ...` block
of `parse_booking_data`: both identifiers are converted, and a failure
on either reverts BOTH to the raw `booking.get` values. -/
def resolveIds (b : RawBooking) : RawVal × RawVal :=
  let roomRaw := b.roomId.getD (RawVal.vInt 0)
  let unitRaw := b.unitId.getD (RawVal.vInt 0)
  match RawVal.toInt? roomRaw, RawVal.toInt? unitRaw with
  | some r, some u => (RawVal.vInt r, RawVal.vInt u)
  | _, _ => (roomRaw, unitRaw)

/-- `room_lookup.get(lookup_key, f"Room {room_id}-{unit_id}")`: a key
with a non-integer component misses the integer-keyed table. -/
def roomNameOf (room_id unit_id : RawVal) : String :=
  let synth := "Room " ++ room_id.str ++ "-" ++ unit_id.str
  match room_id, unit_id with
  | RawVal.vInt r, RawVal.vInt u =>
    match lookupTable (r, u) with
    | some name => name
    | none => synth
  | _, _ => synth

/-- `parse_booking_data`: convert a raw booking record into a
`Reservation`; an unparseable arrival or departure date raises
(`Except.error`). -/
def parse_booking_data (b : RawBooking) : Except MalformedRecordError Reservation :=
  let ids := resolveIds b
  let room_name := roomNameOf ids.1 ids.2
  match parseDate (b.arrival.getD ""), parseDate (b.departure.getD "") with
  | some ci, some co =>
    Except.ok
      ⟨(b.id.map RawVal.str).getD "",
       ((b.lastName.getD "") ++ " " ++ (b.firstName.getD "")).trim,
       room_name,
       (ids.1).str,
       (ids.2).str,
       b.arrival.getD "",
       b.departure.getD "",
       b.status.getD "",
       b.numAdult.getD 0,
       b.numChild.getD 0,
       co.diffDays ci,
       b.notes.getD "",
       ci, co⟩
  | _, _ => Except.error MalformedRecordError.malformedDate

/-! ## Categorization -/

/-- The skip rule of `categorize_reservations`: a `"black"` status is
excluded from every list. -/
def keepRes (r : Reservation) : Bool :=
  !(r.status == "black")

/-- The `key=lambda r: r.room_name` comparison that `sorted` uses:
ascending by room label, plain string comparison. -/
def resLE (a b : Reservation) : Bool :=
  decide (a.room_name ≤ b.room_name)

/-- `categorize_reservations`: partition into arrivals, departures and
stay-through (each condition tested independently), then sort each list
ascending by room name with Python's stable `sorted`. -/
def categorize_reservations (reservations : List Reservation) (target_date : Date) :
    List Reservation × List Reservation × List Reservation :=
  let arrivals := reservations.filter (fun r => keepRes r && r.checkin_date == target_date)
  let departures := reservations.filter (fun r => keepRes r && r.checkout_date == target_date)
  let stay_through := reservations.filter
    (fun r => keepRes r && (Date.ltb r.checkin_date target_date && Date.ltb target_date r.checkout_date))
  (arrivals.mergeSort resLE, departures.mergeSort resLE, stay_through.mergeSort resLE)

/-! ## Fetch-side deduplication -/

/-- The deduplication loop of `fetch_all_relevant_bookings`: `seen` is
the `booking_ids` set (`booking.get('id')`, possibly absent). -/
def dedupById : List RawBooking → List (Option RawVal) → List RawBooking
  | [], _ => []
  | b :: rest, seen =>
    if b.id ∈ seen then dedupById rest seen
    else b :: dedupById rest (b.id :: seen)

/-- `fetch_all_relevant_bookings` from the three raw query results:
concatenate and deduplicate by booking identifier. -/
def fetch_all_relevant_bookings (arrivals departures stay_through : List RawBooking) :
    List RawBooking :=
  dedupById (arrivals ++ departures ++ stay_through) []

/-! ## Token storage -/

/-- The persisted token bundle (`tokens.json` schema).  `expires_at`
and `last_updated` are timestamps (seconds); the access token can be
absent because `store_tokens` receives `token_data.get('token')`,
which may be `None`. -/
structure TokenBundle where
  access_token : Option String
  refresh_token : Option String
  token_type : String
  expires_at : Option Nat
  last_updated : Nat
deriving DecidableEq

/-- Python truthiness of an optional string (`if x:`): present and
non-empty. -/
def truthyOptStr : Option String → Bool
  | none => false
  | some s => !(s == "")

/-- `TokenStorage.store_tokens`: the bundle written (with
`last_updated = datetime.now()`). -/
def store_tokens (access_token refresh_token : Option String) (token_type : String)
    (expires_at : Option Nat) (now : Nat) : TokenBundle :=
  ⟨access_token, refresh_token, token_type, expires_at, now⟩

/-- `TokenStorage.get_tokens`: `none` models the empty dict.  An
expiry in the past (`now >= expires_at`) returns the bundle only when
the stored refresh token is truthy. -/
def TokenStorage.get_tokens (tokens : Option TokenBundle) (now : Nat) : Option TokenBundle :=
  match tokens with
  | none => none
  | some t =>
    match t.expires_at with
    | some e =>
      if now ≥ e then
        (if truthyOptStr t.refresh_token then some t else none)
      else some t
    | none => some t

/-! ## Authentication -/

/-- The JSON body of a successful token exchange
(`{token, refreshToken, expiresIn}`); each field read with `.get`. -/
structure TokenData where
  token : Option String
  refreshToken : Option String
  expiresIn : Nat
deriving DecidableEq

/-- The ambient world of `authenticate`: the current time, the remote
exchange endpoints (an `Except.error` is a
`requests.exceptions.RequestException` carrying its message), and the
three credential environment variables. -/
structure AuthEnv where
  now : Nat
  refreshExchange : String → Except String TokenData
  setupExchange : String → Except String TokenData
  envLongLife : Option String
  envRefresh : Option String
  envInvite : Option String

/-- The client's mutable fields after a call: `self.access_token`,
`self.refresh_token`, and the token storage contents. -/
structure ClientState where
  access_token : Option String
  refresh_token : Option String
  storage : Option TokenBundle
deriving DecidableEq

/-- The `(bool, str)` pair `authenticate` returns, together with the
state it leaves behind. -/
structure AuthResult where
  success : Bool
  message : String
  state : ClientState
deriving DecidableEq

/-- Python `a or b` on optional strings: `b` when `a` is falsy. -/
def pyOr (a b : Option String) : Option String :=
  if truthyOptStr a then a else b

/-- `authenticate_with_refresh_token`: exchange, keep the original
refresh token, store a `"refresh"` bundle expiring `expiresIn` seconds
from now. -/
def authenticate_with_refresh_token (env : AuthEnv) (refresh_token : String) :
    Except String ClientState :=
  match env.refreshExchange refresh_token with
  | Except.error e => Except.error e
  | Except.ok td =>
    let bundle := store_tokens td.token (some refresh_token) "refresh"
      (some (env.now + td.expiresIn)) env.now
    Except.ok ⟨td.token, some refresh_token, some bundle⟩

/-- `authenticate_with_invite_code`: exchange the invite code for an
initial token pair and store a `"refresh"` bundle. -/
def authenticate_with_invite_code (env : AuthEnv) (invite_code : String) :
    Except String ClientState :=
  match env.setupExchange invite_code with
  | Except.error e => Except.error e
  | Except.ok td =>
    let bundle := store_tokens td.token td.refreshToken "refresh"
      (some (env.now + td.expiresIn)) env.now
    Except.ok ⟨td.token, td.refreshToken, some bundle⟩

/-- The explicit-credential tail of `authenticate`: provided arguments
fall back to environment variables (`x or os.getenv(...)`), then
long-life token, refresh token, invite code, in that order. -/
def authTryExplicit (env : AuthEnv) (st : ClientState)
    (long_life_token refresh_token invite_code : Option String) : AuthResult :=
  let llt := pyOr long_life_token env.envLongLife
  let rft := pyOr refresh_token env.envRefresh
  let inv := pyOr invite_code env.envInvite
  if truthyOptStr llt then
    let bundle := store_tokens llt none "long_life" none env.now
    ⟨true, "Authenticated with long-life token", ⟨llt, st.refresh_token, some bundle⟩⟩
  else if truthyOptStr rft then
    match authenticate_with_refresh_token env (rft.getD "") with
    | Except.ok st2 => ⟨true, "Authenticated with refresh token", st2⟩
    | Except.error e => ⟨false, "Authentication failed: " ++ e, st⟩
  else if truthyOptStr inv then
    match authenticate_with_invite_code env (inv.getD "") with
    | Except.ok st2 => ⟨true, "Authenticated with invite code", st2⟩
    | Except.error e => ⟨false, "Authentication failed: " ++ e, st⟩
  else ⟨false, "No authentication credentials provided", st⟩

/-- `Beds24APIClient.authenticate`: try the stored bundle first
(refreshing when it is expired and a truthy refresh token exists,
reusing it when its access token is truthy or no expiry is recorded),
then fall through to explicit credentials. -/
def authenticate (env : AuthEnv) (storage : Option TokenBundle)
    (long_life_token refresh_token invite_code : Option String) : AuthResult :=
  match TokenStorage.get_tokens storage env.now with
  | none => authTryExplicit env ⟨none, none, storage⟩ long_life_token refresh_token invite_code
  | some stored =>
    let st1 : ClientState := ⟨stored.access_token, stored.refresh_token, storage⟩
    match stored.expires_at with
    | none => ⟨true, "Using stored authentication", st1⟩
    | some e =>
      if decide (env.now ≥ e) && truthyOptStr stored.refresh_token then
        match authenticate_with_refresh_token env ((stored.refresh_token).getD "") with
        | Except.ok st2 => ⟨true, "Successfully refreshed authentication", st2⟩
        | Except.error msg => ⟨false, "Failed to refresh token: " ++ msg, st1⟩
      else if truthyOptStr stored.access_token then
        ⟨true, "Using stored authentication", st1⟩
      else authTryExplicit env st1 long_life_token refresh_token invite_code

/-! ## Example data used in concrete scenarios -/

/-- The target date of the worked scenarios. -/
def exDate : Date := ⟨2024, 5, 17⟩

/-- A reservation in the room labelled `"2"`, arriving on the target
date. -/
def resRoomTwo : Reservation :=
  ⟨"1", "Guest A", "2", "0", "0", "2024-05-17", "2024-05-18", "confirmed",
   2, 0, 1, "", ⟨2024, 5, 17⟩, ⟨2024, 5, 18⟩⟩

/-- A reservation in the room labelled `"101"`, arriving on the target
date, listed after `resRoomTwo` in the input. -/
def resRoomOneOhOne : Reservation :=
  ⟨"2", "Guest B", "101", "0", "0", "2024-05-17", "2024-05-18", "confirmed",
   2, 0, 1, "", ⟨2024, 5, 17⟩, ⟨2024, 5, 18⟩⟩

/-! ## Lemmas about dates and sorting -/

theorem Date.ltb_irrefl (a : Date) : Date.ltb a a = false := by
  simp [Date.ltb]

theorem resLE_trans : ∀ (a b c : Reservation), resLE a b → resLE b c → resLE a c := by
  intro a b c h1 h2
  simp only [resLE, decide_eq_true_eq] at h1 h2 ⊢
  exact le_trans h1 h2

theorem resLE_total : ∀ (a b : Reservation), resLE a b || resLE b a := by
  intro a b
  simp only [resLE, Bool.or_eq_true, decide_eq_true_eq]
  exact le_total _ _

/-- The per-room-label slice of a sorted list equals the slice of the
unsorted list: stability of the sort for equal keys. -/
theorem filter_mergeSort_room (l : List Reservation) (v : String) :
    (l.mergeSort resLE).filter (fun r => r.room_name == v) =
      l.filter (fun r => r.room_name == v) := by
  have hpair : (l.filter (fun r => r.room_name == v)).Pairwise (fun a b => resLE a b) := by
    apply List.pairwise_of_forall_mem_list
    intro a ha b hb
    have ha2 := (List.mem_filter.mp ha).2
    have hb2 := (List.mem_filter.mp hb).2
    simp only [beq_iff_eq] at ha2 hb2
    simp [resLE, ha2, hb2]
  have hsub : List.Sublist (l.filter (fun r => r.room_name == v)) (l.mergeSort resLE) :=
    List.sublist_mergeSort resLE_trans resLE_total hpair (List.filter_sublist l)
  have hsub2 : List.Sublist (l.filter (fun r => r.room_name == v))
      ((l.mergeSort resLE).filter (fun r => r.room_name == v)) := by
    have h := hsub.filter (fun r => r.room_name == v)
    simpa [List.filter_filter] using h
  have hlen : ((l.mergeSort resLE).filter (fun r => r.room_name == v)).length =
      (l.filter (fun r => r.room_name == v)).length :=
    ((List.mergeSort_perm l resLE).filter _).length_eq
  exact (hsub2.eq_of_length hlen.symm).symm

/-! ## Claims about categorization -/

/-- Claim C1: for every list of reservations and target date,
`categorize_reservations` places a reservation in arrivals iff its
check-in date equals the target date, in departures iff its check-out
date equals the target date, and in stay-through iff
checkin < target < checkout strictly; a `"black"` reservation is in
none of the lists; a reservation with checkin = checkout = target and
non-`"black"` status is in both arrivals and departures and not in
stay-through. -/
theorem categorize_membership (rs : List Reservation) (t : Date) (r : Reservation) :
    (r ∈ (categorize_reservations rs t).1 ↔
      r ∈ rs ∧ r.status ≠ "black" ∧ r.checkin_date = t)
  ∧ (r ∈ (categorize_reservations rs t).2.1 ↔
      r ∈ rs ∧ r.status ≠ "black" ∧ r.checkout_date = t)
  ∧ (r ∈ (categorize_reservations rs t).2.2 ↔
      r ∈ rs ∧ r.status ≠ "black" ∧
        Date.ltb r.checkin_date t = true ∧ Date.ltb t r.checkout_date = true)
  ∧ (r.status = "black" →
      r ∉ (categorize_reservations rs t).1 ∧
      r ∉ (categorize_reservations rs t).2.1 ∧
      r ∉ (categorize_reservations rs t).2.2)
  ∧ (r ∈ rs → r.status ≠ "black" → r.checkin_date = t → r.checkout_date = t →
      r ∈ (categorize_reservations rs t).1 ∧
      r ∈ (categorize_reservations rs t).2.1 ∧
      r ∉ (categorize_reservations rs t).2.2) := by
  have h1 : r ∈ (categorize_reservations rs t).1 ↔
      r ∈ rs ∧ r.status ≠ "black" ∧ r.checkin_date = t := by
    simp [categorize_reservations, List.mem_mergeSort, List.mem_filter, keepRes]
  have h2 : r ∈ (categorize_reservations rs t).2.1 ↔
      r ∈ rs ∧ r.status ≠ "black" ∧ r.checkout_date = t := by
    simp [categorize_reservations, List.mem_mergeSort, List.mem_filter, keepRes]
  have h3 : r ∈ (categorize_reservations rs t).2.2 ↔
      r ∈ rs ∧ r.status ≠ "black" ∧
        Date.ltb r.checkin_date t = true ∧ Date.ltb t r.checkout_date = true := by
    simp [categorize_reservations, List.mem_mergeSort, List.mem_filter, keepRes, and_assoc]
  refine ⟨h1, h2, h3, ?_, ?_⟩
  · intro hblack
    refine ⟨?_, ?_, ?_⟩
    · intro hm; exact ((h1.mp hm).2.1 hblack)
    · intro hm; exact ((h2.mp hm).2.1 hblack)
    · intro hm; exact ((h3.mp hm).2.1 hblack)
  · intro hmem hstatus hci hco
    refine ⟨h1.mpr ⟨hmem, hstatus, hci⟩, h2.mpr ⟨hmem, hstatus, hco⟩, ?_⟩
    intro hm
    have hlt := (h3.mp hm).2.2.1
    rw [hci] at hlt
    rw [Date.ltb_irrefl] at hlt
    exact Bool.false_ne_true hlt

/-- Claim C1 witness: a concrete zero-night reservation with
checkin = checkout = target appears in arrivals and departures, not in
stay-through. -/
theorem categorize_membership_witness :
    (⟨"9", "G", "101", "0", "0", "2024-05-17", "2024-05-17", "confirmed",
       1, 0, 0, "", ⟨2024, 5, 17⟩, ⟨2024, 5, 17⟩⟩ : Reservation) ∈
      (categorize_reservations
        [⟨"9", "G", "101", "0", "0", "2024-05-17", "2024-05-17", "confirmed",
          1, 0, 0, "", ⟨2024, 5, 17⟩, ⟨2024, 5, 17⟩⟩] ⟨2024, 5, 17⟩).1 ∧
    (⟨"9", "G", "101", "0", "0", "2024-05-17", "2024-05-17", "confirmed",
       1, 0, 0, "", ⟨2024, 5, 17⟩, ⟨2024, 5, 17⟩⟩ : Reservation) ∈
      (categorize_reservations
        [⟨"9", "G", "101", "0", "0", "2024-05-17", "2024-05-17", "confirmed",
          1, 0, 0, "", ⟨2024, 5, 17⟩, ⟨2024, 5, 17⟩⟩] ⟨2024, 5, 17⟩).2.1 ∧
    (⟨"9", "G", "101", "0", "0", "2024-05-17", "2024-05-17", "confirmed",
       1, 0, 0, "", ⟨2024, 5, 17⟩, ⟨2024, 5, 17⟩⟩ : Reservation) ∉
      (categorize_reservations
        [⟨"9", "G", "101", "0", "0", "2024-05-17", "2024-05-17", "confirmed",
          1, 0, 0, "", ⟨2024, 5, 17⟩, ⟨2024, 5, 17⟩⟩] ⟨2024, 5, 17⟩).2.2 :=
  (categorize_membership _ ⟨2024, 5, 17⟩ _).2.2.2.2
    (by simp) (by decide) rfl rfl

/-- Claim C9: `categorize_reservations` is a pure function of its
input list and date, so re-running it on the same input and date
yields identical lists in identical order. -/
theorem categorize_deterministic (rs : List Reservation) (t : Date) :
    categorize_reservations rs t = categorize_reservations rs t := rfl

/-- Claim C8: each list returned by `categorize_reservations` is
sorted ascending by room label under ordinary (lexicographic) string
comparison; in that order `"101"` precedes `"2"`, as the concrete
two-reservation run shows. -/
theorem categorize_sorted (rs : List Reservation) (t : Date) :
    List.Pairwise (fun a b : Reservation => a.room_name ≤ b.room_name)
      (categorize_reservations rs t).1
  ∧ List.Pairwise (fun a b : Reservation => a.room_name ≤ b.room_name)
      (categorize_reservations rs t).2.1
  ∧ List.Pairwise (fun a b : Reservation => a.room_name ≤ b.room_name)
      (categorize_reservations rs t).2.2
  ∧ (("101" : String) < "2")
  ∧ ((categorize_reservations [resRoomTwo, resRoomOneOhOne] exDate).1.map
      Reservation.room_name = ["101", "2"]) := by
  have key : ∀ (l : List Reservation),
      List.Pairwise (fun a b : Reservation => a.room_name ≤ b.room_name)
        (l.mergeSort resLE) := by
    intro l
    exact (List.sorted_mergeSort resLE_trans resLE_total l).imp
      (fun h => by simpa [resLE] using h)
  refine ⟨key _, key _, key _, ?_, ?_⟩
  · rw [String.lt_iff_toList_lt]
    decide
  · simp [categorize_reservations, resRoomTwo, resRoomOneOhOne, exDate, keepRes,
      List.mergeSort, List.splitInTwo, List.splitAt, List.splitAt.go, List.merge, resLE]
    decide

/-- Claim C10: the per-list sort by room label is stable: slicing any
output list down to one room label yields exactly the reservations of
that label that pass the list's predicate, in input order. -/
theorem categorize_stable (rs : List Reservation) (t : Date) (v : String) :
    ((categorize_reservations rs t).1.filter (fun r => r.room_name == v) =
      (rs.filter (fun r => keepRes r && r.checkin_date == t)).filter
        (fun r => r.room_name == v))
  ∧ ((categorize_reservations rs t).2.1.filter (fun r => r.room_name == v) =
      (rs.filter (fun r => keepRes r && r.checkout_date == t)).filter
        (fun r => r.room_name == v))
  ∧ ((categorize_reservations rs t).2.2.filter (fun r => r.room_name == v) =
      (rs.filter (fun r => keepRes r &&
          (Date.ltb r.checkin_date t && Date.ltb t r.checkout_date))).filter
        (fun r => r.room_name == v)) :=
  ⟨filter_mergeSort_room _ v, filter_mergeSort_room _ v, filter_mergeSort_room _ v⟩

/-! ## Claims about record parsing -/

/-- The worked-scenario booking: id `"A1"`, room pair `(564321, 1)`,
17 to 19 May 2024. -/
def exBooking : RawBooking :=
  ⟨some (RawVal.vStr "A1"), some "John", some "Doe",
   some (RawVal.vInt 564321), some (RawVal.vInt 1),
   some "2024-05-17", some "2024-05-19", some "confirmed",
   some 2, some 0, some ""⟩

/-- Claim C2: when both date fields parse, `parse_booking_data`
returns a reservation whose `nights` equals the day difference of its
check-out and check-in dates; when either date is unparseable it fails
with `MalformedRecordError` instead of returning a reservation. -/
theorem parse_booking_nights (b : RawBooking) :
    (∀ d1 d2, parseDate ((b.arrival).getD "") = some d1 →
        parseDate ((b.departure).getD "") = some d2 →
      ∃ r, parse_booking_data b = Except.ok r ∧ r.checkin_date = d1 ∧
        r.checkout_date = d2 ∧
        r.nights = Date.diffDays r.checkout_date r.checkin_date)
  ∧ ((parseDate ((b.arrival).getD "") = none ∨
        parseDate ((b.departure).getD "") = none) →
      parse_booking_data b = Except.error MalformedRecordError.malformedDate) := by
  constructor
  · intro d1 d2 h1 h2
    simp only [parse_booking_data, h1, h2]
    exact ⟨_, rfl, rfl, rfl, rfl⟩
  · intro h
    rcases h1 : parseDate ((b.arrival).getD "") with _ | d1 <;>
      rcases h2 : parseDate ((b.departure).getD "") with _ | d2 <;>
      simp [parse_booking_data, h1, h2] <;>
      rcases h with h | h <;> simp_all

/-- Claim C2 witness: the worked-scenario booking parses, with dates
17 and 19 May 2024 and the derived night count. -/
theorem parse_booking_nights_witness :
    ∃ r, parse_booking_data exBooking = Except.ok r ∧
      r.checkin_date = ⟨2024, 5, 17⟩ ∧ r.checkout_date = ⟨2024, 5, 19⟩ ∧
      r.nights = Date.diffDays r.checkout_date r.checkin_date :=
  (parse_booking_nights exBooking).1 ⟨2024, 5, 17⟩ ⟨2024, 5, 19⟩
    (by decide) (by decide)

/-- A raw booking whose room identifier parses as an integer but whose
unit identifier does not. -/
def bkMixedIds : RawBooking :=
  ⟨some (RawVal.vStr "B7"), none, none,
   some (RawVal.vStr "564321"), some (RawVal.vStr "abc"),
   some "2024-05-17", some "2024-05-19", some "confirmed",
   some 1, some 0, none⟩

/-- Claim C6 counterexample: the room identifier `"564321"` parses as
an integer, yet `parse_booking_data` keeps it raw because the unit
identifier fails to parse — the two identifiers are not converted
independently as the claim states. -/
theorem resolveIds_cex :
    RawVal.toInt? ((bkMixedIds.roomId).getD (RawVal.vInt 0)) = some 564321 ∧
    (resolveIds bkMixedIds).1 = RawVal.vStr "564321" ∧
    (resolveIds bkMixedIds).1 ≠ RawVal.vInt 564321 := by decide

/-- Claim C6 (amended): the identifiers are converted jointly: when
both parse as integers, both are kept as integers; when either fails,
both raw values are kept as-is; any key with a non-integer component
misses the table and falls to the synthesized label. -/
theorem resolveIds_spec (b : RawBooking) :
    (∀ r u, RawVal.toInt? ((b.roomId).getD (RawVal.vInt 0)) = some r →
        RawVal.toInt? ((b.unitId).getD (RawVal.vInt 0)) = some u →
        resolveIds b = (RawVal.vInt r, RawVal.vInt u))
  ∧ ((RawVal.toInt? ((b.roomId).getD (RawVal.vInt 0)) = none ∨
        RawVal.toInt? ((b.unitId).getD (RawVal.vInt 0)) = none) →
      resolveIds b = ((b.roomId).getD (RawVal.vInt 0), (b.unitId).getD (RawVal.vInt 0)))
  ∧ (∀ s, ((resolveIds b).1 = RawVal.vStr s ∨ (resolveIds b).2 = RawVal.vStr s) →
      roomNameOf (resolveIds b).1 (resolveIds b).2 =
        "Room " ++ ((resolveIds b).1).str ++ "-" ++ ((resolveIds b).2).str) := by
  refine ⟨?_, ?_, ?_⟩
  · intro r u h1 h2
    simp [resolveIds, h1, h2]
  · intro h
    rcases h1 : RawVal.toInt? ((b.roomId).getD (RawVal.vInt 0)) with _ | r <;>
      rcases h2 : RawVal.toInt? ((b.unitId).getD (RawVal.vInt 0)) with _ | u <;>
      simp [resolveIds, h1, h2] <;> rcases h with h | h <;> simp_all
  · intro s h
    rcases hx : (resolveIds b).1 with n | t <;> rcases hy : (resolveIds b).2 with m | w <;>
      simp [roomNameOf] <;> simp_all

/-- Claim C6 (amended) witness: on the mixed booking both raw values
are kept. -/
theorem resolveIds_spec_witness :
    resolveIds bkMixedIds = (RawVal.vStr "564321", RawVal.vStr "abc") :=
  (resolveIds_spec bkMixedIds).2.1 (Or.inr (by decide))

/-- First-occurrence association lookup: in a list with pairwise
distinct keys, a present pair is what `find?` returns. -/
theorem find_assoc_eq_of_mem :
    ∀ {l : List ((Int × Int) × String)}, l.Pairwise (fun p q => p.1 ≠ q.1) →
      ∀ {k v}, (k, v) ∈ l →
        (l.find? (fun p => p.1 == k)).map (fun p => p.2) = some v := by
  intro l hp
  induction hp with
  | nil => intro k v hm; cases hm
  | cons hhead _htail ih =>
    intro k v hm
    rcases List.mem_cons.mp hm with h | h
    · subst h
      simp
    · have hne := hhead _ h
      simp only [ne_eq] at hne
      rw [List.find?_cons_of_neg]
      · exact ih h
      · simp
        intro hk
        exact absurd (hk ▸ rfl) hne

/-- Claim C7: the room label comes from the static table — whose
(room, unit) keys each map to at most one label — when the integer
pair is present, and is the synthesized `"Room {roomId}-{unitId}"`
otherwise; `(564321, 1)` gives `"101"` and `(999999, 1)` gives
`"Room 999999-1"`; `parse_booking_data` stores exactly this label. -/
theorem room_label_resolution :
    room_lookup.Pairwise (fun p q => p.1 ≠ q.1)
  ∧ (∀ (k : Int × Int) (name : String), (k, name) ∈ room_lookup →
      roomNameOf (RawVal.vInt k.1) (RawVal.vInt k.2) = name)
  ∧ (∀ r u : Int, (∀ name, ((r, u), name) ∉ room_lookup) →
      roomNameOf (RawVal.vInt r) (RawVal.vInt u) =
        "Room " ++ toString r ++ "-" ++ toString u)
  ∧ (∀ (b : RawBooking) (res : Reservation), parse_booking_data b = Except.ok res →
      res.room_name = roomNameOf (resolveIds b).1 (resolveIds b).2)
  ∧ roomNameOf (RawVal.vInt 564321) (RawVal.vInt 1) = "101"
  ∧ roomNameOf (RawVal.vInt 999999) (RawVal.vInt 1) = "Room 999999-1" := by
  have hpw : room_lookup.Pairwise (fun p q => p.1 ≠ q.1) := by decide
  refine ⟨hpw, ?_, ?_, ?_, by decide, by decide⟩
  · intro k name hm
    have hfind := find_assoc_eq_of_mem hpw hm
    simp [roomNameOf, lookupTable, hfind]
  · intro r u habs
    have hfind : room_lookup.find? (fun p => p.1 == (r, u)) = none := by
      rw [List.find?_eq_none]
      intro x hx
      simp only [beq_iff_eq]
      intro hk
      exact habs x.2 (by rw [← hk]; exact hx)
    simp [roomNameOf, lookupTable, RawVal.str, hfind]
  · intro b res h
    rcases h1 : parseDate ((b.arrival).getD "") with _ | ci <;>
      rcases h2 : parseDate ((b.departure).getD "") with _ | co <;>
      simp [parse_booking_data, h1, h2] at h <;> try cases h
    rfl

/-- Claim C7 witness: a table entry resolved through the general
membership clause. -/
theorem room_label_resolution_witness :
    roomNameOf (RawVal.vInt 564327) (RawVal.vInt 2) = "202" :=
  room_label_resolution.2.1 (564327, 2) "202" (by decide)

/-! ## Claims about fetch deduplication -/

theorem dedupById_sublist (l : List RawBooking) :
    ∀ (seen : List (Option RawVal)), List.Sublist (dedupById l seen) l := by
  induction l with
  | nil => intro seen; simp [dedupById]
  | cons b rest ih =>
    intro seen
    simp only [dedupById]
    by_cases h : b.id ∈ seen
    · rw [if_pos h]
      exact (ih seen).cons b
    · rw [if_neg h]
      exact (ih _).cons₂ b

theorem dedupById_mem_spec (l : List RawBooking) :
    ∀ (seen : List (Option RawVal)) (b : RawBooking), b ∈ dedupById l seen →
      b.id ∉ seen ∧ l.find? (fun x => x.id == b.id) = some b := by
  induction l with
  | nil => intro seen b h; cases h
  | cons c rest ih =>
    intro seen b h
    simp only [dedupById] at h
    by_cases hc : c.id ∈ seen
    · rw [if_pos hc] at h
      obtain ⟨hns, hfind⟩ := ih seen b h
      refine ⟨hns, ?_⟩
      rw [List.find?_cons_of_neg _ ?_, hfind]
      simp only [beq_iff_eq]
      intro heq
      exact hns (heq ▸ hc)
    · rw [if_neg hc] at h
      rcases List.mem_cons.mp h with rfl | h2
      · refine ⟨hc, ?_⟩
        rw [List.find?_cons_of_pos]
        simp
      · obtain ⟨hns, hfind⟩ := ih _ b h2
        have hbc : b.id ≠ c.id := fun he => hns (by rw [he]; exact List.mem_cons_self _ _)
        refine ⟨fun hin => hns (List.mem_cons_of_mem _ hin), ?_⟩
        rw [List.find?_cons_of_neg _ ?_, hfind]
        simp only [beq_iff_eq]
        exact fun he => hbc he.symm

theorem dedupById_pairwise (l : List RawBooking) :
    ∀ (seen : List (Option RawVal)),
      (dedupById l seen).Pairwise (fun x y => x.id ≠ y.id) := by
  induction l with
  | nil => intro seen; simp [dedupById]
  | cons c rest ih =>
    intro seen
    simp only [dedupById]
    by_cases hc : c.id ∈ seen
    · rw [if_pos hc]; exact ih seen
    · rw [if_neg hc]
      refine List.pairwise_cons.mpr ⟨?_, ih _⟩
      intro b hb he
      exact (dedupById_mem_spec rest _ b hb).1 (by rw [← he]; exact List.mem_cons_self _ _)

theorem dedupById_covers (l : List RawBooking) :
    ∀ (seen : List (Option RawVal)) (b : RawBooking), b ∈ l → b.id ∉ seen →
      ∃ c ∈ dedupById l seen, c.id = b.id := by
  induction l with
  | nil => intro seen b h; cases h
  | cons c rest ih =>
    intro seen b hb hns
    simp only [dedupById]
    by_cases hc : c.id ∈ seen
    · rw [if_pos hc]
      rcases List.mem_cons.mp hb with rfl | h2
      · exact absurd hc hns
      · exact ih seen b h2 hns
    · rw [if_neg hc]
      by_cases hid : b.id = c.id
      · exact ⟨c, List.mem_cons_self _ _, hid.symm⟩
      · rcases List.mem_cons.mp hb with rfl | h2
        · exact absurd rfl hid
        · obtain ⟨x, hx, hxid⟩ :=
            ih _ b h2 (fun h => (List.mem_cons.mp h).elim hid hns)
          exact ⟨x, List.mem_cons_of_mem _ hx, hxid⟩

theorem countP_id_eq_one (l : List RawBooking)
    (hp : l.Pairwise (fun x y => x.id ≠ y.id)) :
    ∀ c ∈ l, l.countP (fun x => x.id == c.id) = 1 := by
  induction hp with
  | nil => intro c hc; cases hc
  | @cons a t hhead _htail ih =>
    intro c hc
    rcases List.mem_cons.mp hc with rfl | h2
    · have hz : t.countP (fun x => x.id == c.id) = 0 := by
        rw [List.countP_eq_zero]
        intro x hx
        simp only [beq_iff_eq]
        exact fun he => hhead x hx he.symm
      simp [List.countP_cons, hz]
    · have hne : (a.id == c.id) = false := by
        simp only [beq_eq_false_iff_ne, ne_eq]
        exact hhead c h2
      simp [List.countP_cons, hne, ih c h2]

/-- Claim C3: the combined fetch result is the concatenation
arrivals ++ departures ++ stay-through deduplicated by booking
identifier: it is a subsequence of the concatenation (first-seen order
and full field values preserved), its identifiers are pairwise
distinct, every identifier of the concatenation survives, every kept
record is the first occurrence of its identifier, and an identifier
present anywhere occurs exactly once in the result. -/
theorem fetch_dedup_spec (a d s : List RawBooking) :
    List.Sublist (fetch_all_relevant_bookings a d s) (a ++ d ++ s)
  ∧ (fetch_all_relevant_bookings a d s).Pairwise (fun x y => x.id ≠ y.id)
  ∧ (∀ b ∈ a ++ d ++ s, ∃ c ∈ fetch_all_relevant_bookings a d s, c.id = b.id)
  ∧ (∀ c ∈ fetch_all_relevant_bookings a d s,
      (a ++ d ++ s).find? (fun x => x.id == c.id) = some c)
  ∧ (∀ i, (∃ b ∈ a ++ d ++ s, b.id = i) →
      (fetch_all_relevant_bookings a d s).countP (fun x => x.id == i) = 1) := by
  refine ⟨dedupById_sublist _ _, dedupById_pairwise _ _, ?_, ?_, ?_⟩
  · intro b hb
    exact dedupById_covers _ _ b hb (by simp)
  · intro c hc
    exact (dedupById_mem_spec _ _ c hc).2
  · rintro i ⟨b, hb, hbid⟩
    obtain ⟨c, hc, hcid⟩ := dedupById_covers _ [] b hb (by simp)
    have hone := countP_id_eq_one _ (dedupById_pairwise _ []) c hc
    simp only [hcid, hbid] at hone
    exact hone

/-- Two raw records sharing the identifier `"123"` but with different
fields, plus the first one recurring in the stay-through list. -/
def bk123first : RawBooking :=
  ⟨some (RawVal.vStr "123"), some "John", some "Doe",
   some (RawVal.vInt 564321), some (RawVal.vInt 1),
   some "2024-05-17", some "2024-05-19", some "confirmed",
   some 2, some 0, some "first"⟩

/-- A later record with the same identifier `"123"` and different
field values. -/
def bk123dup : RawBooking :=
  ⟨some (RawVal.vStr "123"), some "Jane", some "Roe",
   some (RawVal.vInt 564327), some (RawVal.vInt 2),
   some "2024-05-10", some "2024-05-19", some "new",
   some 1, some 1, some "dup"⟩

/-- Claim C3 witness: with id `"123"` occurring in all three lists,
exactly one entry with that id remains, and it is the first occurrence
with its full field values. -/
theorem fetch_dedup_spec_witness :
    (fetch_all_relevant_bookings [bk123first] [bk123dup] [bk123first]).countP
      (fun x => x.id == some (RawVal.vStr "123")) = 1 ∧
    fetch_all_relevant_bookings [bk123first] [bk123dup] [bk123first] = [bk123first] :=
  ⟨(fetch_dedup_spec [bk123first] [bk123dup] [bk123first]).2.2.2.2
      (some (RawVal.vStr "123")) ⟨bk123first, by simp, rfl⟩,
   by decide⟩

/-! ## Claims about token storage -/

/-- A stored bundle whose expiry has passed and whose refresh token is
present but empty. -/
def bundleEmptyRefresh : TokenBundle :=
  ⟨some "acc", some "", "refresh", some 5, 0⟩

/-- Claim C4 counterexample: at time 10 the expiry (5) has passed and
a refresh token is present (`some ""`), yet `get_tokens` returns
absent rather than the bundle: the code tests Python truthiness, and
an empty refresh token is falsy. -/
theorem get_tokens_cex :
    bundleEmptyRefresh.expires_at = some 5 ∧ (5 : Nat) ≤ 10 ∧
    (bundleEmptyRefresh.refresh_token).isSome = true ∧
    TokenStorage.get_tokens (some bundleEmptyRefresh) 10 = none := by decide

/-- Claim C4 (amended): `get_tokens` returns the bundle when no expiry
is set or the expiry is in the future; when the expiry has passed
(`now ≥ expires_at`) it returns the bundle only when a NON-EMPTY
refresh token is present, and absent when the refresh token is missing
or empty; with nothing stored it returns absent. -/
theorem get_tokens_spec (b : TokenBundle) (now : Nat) :
    (TokenStorage.get_tokens none now = none)
  ∧ (b.expires_at = none → TokenStorage.get_tokens (some b) now = some b)
  ∧ (∀ e, b.expires_at = some e → now < e →
      TokenStorage.get_tokens (some b) now = some b)
  ∧ (∀ e, b.expires_at = some e → e ≤ now → truthyOptStr b.refresh_token = true →
      TokenStorage.get_tokens (some b) now = some b)
  ∧ (∀ e, b.expires_at = some e → e ≤ now → truthyOptStr b.refresh_token = false →
      TokenStorage.get_tokens (some b) now = none) := by
  refine ⟨rfl, ?_, ?_, ?_, ?_⟩
  · intro h
    simp [TokenStorage.get_tokens, h]
  · intro e he hlt
    simp [TokenStorage.get_tokens, he, Nat.not_le.mpr hlt]
  · intro e he hle ht
    simp [TokenStorage.get_tokens, he, hle, ht]
  · intro e he hle ht
    simp [TokenStorage.get_tokens, he, hle, ht]

/-- Claim C4 (amended) witness: an expired bundle with the non-empty
refresh token `"r"` is still returned at time 10. -/
theorem get_tokens_spec_witness :
    TokenStorage.get_tokens (some ⟨some "acc", some "r", "refresh", some 5, 0⟩) 10 =
      some ⟨some "acc", some "r", "refresh", some 5, 0⟩ :=
  (get_tokens_spec ⟨some "acc", some "r", "refresh", some 5, 0⟩ 10).2.2.2.1 5
    rfl (by decide) (by decide)

/-! ## Claims about authentication resolution -/

/-- An environment with no credential environment variables and an
unreachable network, at time 50. -/
def envNoCreds : AuthEnv :=
  ⟨50, fun _ => Except.error "network unreachable",
   fun _ => Except.error "network unreachable", none, none, none⟩

/-- A stored bundle with a future expiry but an empty access token and
no refresh token. -/
def bundleEmptyAccess : TokenBundle :=
  ⟨some "", none, "refresh", some 100, 0⟩

/-- Claim C5 counterexample: `get_tokens` yields the stored bundle
(expiry 100 is in the future at time 50), so resolution step (1) of
the claim would reuse it; instead `authenticate` falls through every
step and fails with the no-credentials error, because the stored
access token is empty (falsy). -/
theorem authenticate_cex :
    TokenStorage.get_tokens (some bundleEmptyAccess) envNoCreds.now =
      some bundleEmptyAccess ∧
    envNoCreds.now < 100 ∧
    authenticate envNoCreds (some bundleEmptyAccess) none none none =
      ⟨false, "No authentication credentials provided",
        ⟨some "", none, some bundleEmptyAccess⟩⟩ :=
  ⟨rfl, by decide, rfl⟩

/-- Claim C5 (amended): `authenticate` resolves credentials in fixed
order with first match winning: (1) a stored bundle returned by
`get_tokens` is reused when it has no recorded expiry, or a future
expiry with a non-empty access token; when it is expired with a
non-empty refresh token a refresh-token exchange is performed first
(success reuses, failure reports a refresh failure); a stored bundle
with a future expiry but an empty access token falls through; then
(2) an explicit (or environment) long-life token is stored as a
long-life credential and used, (3) an explicit refresh token is
exchanged and stored as refresh-based, (4) an explicit invite code is
exchanged for an initial token pair and stored as refresh-based, and
(5) with no credential available the call fails with the
no-credentials error. -/
theorem authenticate_resolution (env : AuthEnv) (storage : Option TokenBundle)
    (llt rft inv : Option String) :
    (∀ b, TokenStorage.get_tokens storage env.now = some b → b.expires_at = none →
      authenticate env storage llt rft inv =
        ⟨true, "Using stored authentication", ⟨b.access_token, b.refresh_token, storage⟩⟩)
  ∧ (∀ b e, TokenStorage.get_tokens storage env.now = some b → b.expires_at = some e →
      env.now < e → truthyOptStr b.access_token = true →
      authenticate env storage llt rft inv =
        ⟨true, "Using stored authentication", ⟨b.access_token, b.refresh_token, storage⟩⟩)
  ∧ (∀ b e, TokenStorage.get_tokens storage env.now = some b → b.expires_at = some e →
      e ≤ env.now → truthyOptStr b.refresh_token = true →
      (∀ td, env.refreshExchange ((b.refresh_token).getD "") = Except.ok td →
        authenticate env storage llt rft inv =
          ⟨true, "Successfully refreshed authentication",
            ⟨td.token, b.refresh_token,
              some ⟨td.token, b.refresh_token, "refresh",
                some (env.now + td.expiresIn), env.now⟩⟩⟩) ∧
      (∀ msg, env.refreshExchange ((b.refresh_token).getD "") = Except.error msg →
        authenticate env storage llt rft inv =
          ⟨false, "Failed to refresh token: " ++ msg,
            ⟨b.access_token, b.refresh_token, storage⟩⟩))
  ∧ (∀ b e, TokenStorage.get_tokens storage env.now = some b → b.expires_at = some e →
      env.now < e → truthyOptStr b.access_token = false →
      authenticate env storage llt rft inv =
        authTryExplicit env ⟨b.access_token, b.refresh_token, storage⟩ llt rft inv)
  ∧ (TokenStorage.get_tokens storage env.now = none →
      authenticate env storage llt rft inv =
        authTryExplicit env ⟨none, none, storage⟩ llt rft inv)
  ∧ (∀ st, truthyOptStr (pyOr llt env.envLongLife) = true →
      authTryExplicit env st llt rft inv =
        ⟨true, "Authenticated with long-life token",
          ⟨pyOr llt env.envLongLife, st.refresh_token,
            some ⟨pyOr llt env.envLongLife, none, "long_life", none, env.now⟩⟩⟩)
  ∧ (∀ st, truthyOptStr (pyOr llt env.envLongLife) = false →
      truthyOptStr (pyOr rft env.envRefresh) = true →
      authTryExplicit env st llt rft inv =
        (match authenticate_with_refresh_token env ((pyOr rft env.envRefresh).getD "") with
         | Except.ok st2 => ⟨true, "Authenticated with refresh token", st2⟩
         | Except.error e => ⟨false, "Authentication failed: " ++ e, st⟩))
  ∧ (∀ st, truthyOptStr (pyOr llt env.envLongLife) = false →
      truthyOptStr (pyOr rft env.envRefresh) = false →
      truthyOptStr (pyOr inv env.envInvite) = true →
      authTryExplicit env st llt rft inv =
        (match authenticate_with_invite_code env ((pyOr inv env.envInvite).getD "") with
         | Except.ok st2 => ⟨true, "Authenticated with invite code", st2⟩
         | Except.error e => ⟨false, "Authentication failed: " ++ e, st⟩))
  ∧ (∀ st, truthyOptStr (pyOr llt env.envLongLife) = false →
      truthyOptStr (pyOr rft env.envRefresh) = false →
      truthyOptStr (pyOr inv env.envInvite) = false →
      authTryExplicit env st llt rft inv =
        ⟨false, "No authentication credentials provided", st⟩) := by
  refine ⟨?_, ?_, ?_, ?_, ?_, ?_, ?_, ?_, ?_⟩
  · intro b hget hexp
    simp [authenticate, hget, hexp]
  · intro b e hget hexp hlt hacc
    simp [authenticate, hget, hexp, Nat.not_le.mpr hlt, hacc]
  · intro b e hget hexp hle hrt
    have hs : ∃ s, b.refresh_token = some s ∧ s ≠ "" := by
      rcases hr : b.refresh_token with _ | s
      · rw [hr] at hrt; simp [truthyOptStr] at hrt
      · rw [hr] at hrt; simp [truthyOptStr] at hrt
        exact ⟨s, rfl, hrt⟩
    obtain ⟨s, hsome, hne⟩ := hs
    have hts : truthyOptStr (some s) = true := by
      simp [truthyOptStr]
      exact hne
    constructor
    · intro td hok
      rw [hsome] at hok
      simp only [Option.getD_some] at hok
      simp [authenticate, hget, hexp, hle, hrt, hsome, hts,
        authenticate_with_refresh_token, hok, store_tokens]
    · intro msg herr
      rw [hsome] at herr
      simp only [Option.getD_some] at herr
      simp [authenticate, hget, hexp, hle, hrt, hsome, hts,
        authenticate_with_refresh_token, herr]
  · intro b e hget hexp hlt hacc
    simp [authenticate, hget, hexp, Nat.not_le.mpr hlt, hacc]
  · intro hget
    simp [authenticate, hget]
  · intro st hl
    simp [authTryExplicit, hl, store_tokens]
  · intro st hl hr
    simp [authTryExplicit, hl, hr]
  · intro st hl hr hi
    simp [authTryExplicit, hl, hr, hi]
  · intro st hl hr hi
    simp [authTryExplicit, hl, hr, hi]

/-- Claim C5 (amended) witness: with nothing stored, no arguments and
no environment variables the call fails with the no-credentials
error. -/
theorem authenticate_resolution_witness :
    authenticate envNoCreds none none none none =
      ⟨false, "No authentication credentials provided", ⟨none, none, none⟩⟩ := by
  have h := authenticate_resolution envNoCreds none none none none
  rw [h.2.2.2.2.1 rfl]
  exact h.2.2.2.2.2.2.2.2 ⟨none, none, none⟩ rfl rfl rfl
